import Mathlib

/-!
Shallow embedding of the conversational contact-discovery backend
(conversations.service.ts and search.service.ts) and proofs about its
interpretation → enrichment → response pipeline.

Modelling conventions:
- The loosely-typed JSON payloads of JavaScript are embedded as the inductive
  `JVal`; JS truthiness is `JVal.truthy`.
- String-valued profile fields that may be `undefined` in JS are embedded
  as `String`, with `""` standing for both the empty string and `undefined`
  (the two are indistinguishable under the `||` / `?:` truthiness tests the
  code applies to them).
- Numeric fields that may be absent are `Option Int`; `x || d` on them is
  `jsOrNum` (note JS maps both `undefined` and `0` to the default).
- `Date.now()` and `Math.random()` are passed in as explicit parameters
  (`now`, and per-item fresh-id strings), since they only ever feed
  synthesized identifier strings.
- Outbound HTTP calls are parameters: the RocketReach transport is a
  function `net : Nat → RRQuery → Except String (List RawProfile)` giving
  the outcome of each sub-query, and the OpenAI transport is
  `openai : String → Except String AiSearchResult` from the built input
  string to the parsed interpretation result.  Enrichment additionally
  takes `setup : Except String Unit`, the outcome of the setup-level code
  of the outer `try` block (e.g. iterating a malformed `targetProfiles`),
  which in the source can throw above the per-profile sub-query level.
- The Mongo store is an explicit list of documents; `findOne`/`deleteOne`
  filters `{_id, userId}` become predicate lookups on that list.
-/

/-- A JSON-ish JavaScript value, as handled by the untyped RocketReach
payload fields (`emails`, `phones`, ...). -/
inductive JVal where
  | jstr  : String → JVal
  | jnum  : Int → JVal
  | jbool : Bool → JVal
  | jnull : JVal
  | jarr  : List JVal → JVal
  | jobj  : List (String × JVal) → JVal

/-- JS truthiness of a `JVal`.  Strings are truthy iff non-empty, numbers
iff non-zero, `null`/`undefined` falsy, and every object (arrays and plain
objects alike) truthy. -/
def JVal.truthy : JVal → Bool
  | JVal.jstr s  => s ≠ ""
  | JVal.jnum n  => n ≠ 0
  | JVal.jbool b => b
  | JVal.jnull   => false
  | JVal.jarr _  => true
  | JVal.jobj _  => true

/-- JS property access `obj[k]` on an object literal: the value of the field if
present, else `undefined` (embedded as `jnull`, which is likewise falsy and
never returned by the extraction chain below). -/
def fieldVal (fields : List (String × JVal)) (k : String) : JVal :=
  match fields.find? (fun p => p.1 == k) with
  | some p => p.2
  | none   => JVal.jnull

/-- JS `a || b` on `JVal`s. -/
def jvalOr (a b : JVal) : JVal := if a.truthy then a else b

/-- The `.map` callback of `extractStringArray` in the source: a plain
string maps to itself; an object is resolved through the truthiness chain
`item.email` / `item.number` / `item.value` / `item.raw_number`; anything
else (including `null`, whose `typeof` is object but which fails the
`item !== null` guard, and numbers/booleans) maps to `null` (`none`).
A JS array has `typeof` object and none of the four properties, so it
also maps to `none`. -/
def extractItem : JVal → Option JVal
  | JVal.jstr s => some (JVal.jstr s)
  | JVal.jobj fields =>
      let e := fieldVal fields "email"
      if e.truthy then some e
      else
        let n := fieldVal fields "number"
        if n.truthy then some n
        else
          let v := fieldVal fields "value"
          if v.truthy then some v
          else
            let r := fieldVal fields "raw_number"
            if r.truthy then some r
            else none
  | JVal.jarr _ => none
  | _ => none

/-- `extractStringArray` from the source: `if (!data || !Array.isArray(data))
return []`, then map each item through `extractItem` and keep only the
results that are non-empty strings (string-typed values of positive length),
preserving order. -/
def extractStringArray (data : JVal) : List String :=
  match data with
  | JVal.jarr items =>
      (items.map extractItem).filterMap fun v =>
        match v with
        | some (JVal.jstr s) => if s.length > 0 then some s else none
        | _ => none
  | _ => []

/-- The description of per-entry extraction in the spec (§4.3): a plain string
is kept; an object is resolved by checking its `email`, `number`, `value`,
`raw_number` fields in that priority order (a field counts when present
with a truthy value); anything else is dropped; empty strings and
non-string resolutions are excluded. -/
def extractEntrySpec : JVal → Option String
  | JVal.jstr s => if s = "" then none else some s
  | JVal.jobj fields =>
      match ["email", "number", "value", "raw_number"].findSome?
        (fun k => let v := fieldVal fields k
                  if v.truthy then some v else none) with
      | some (JVal.jstr s) => if s = "" then none else some s
      | _ => none
  | _ => none

/-- JS `a || b` for string fields that may be `undefined`/empty (both
falsy, both embedded as `""`). -/
def jsOr (a b : String) : String := if a = "" then b else a

/-- JS `[x, y, ...].filter(Boolean).join(sep)`. -/
def joinNonEmpty (sep : String) (xs : List String) : String :=
  String.intercalate sep (xs.filter (fun x => x ≠ ""))

/-- JS `x || d` for a possibly-absent numeric field: `undefined` and `0`
both fall through to the default. -/
def jsOrNum (x : Option Int) (d : Int) : Int :=
  match x with
  | some v => if v = 0 then d else v
  | none => d

/-- One AI-inferred target profile (`AiProfessional` in the source).
String fields use `""` for `undefined`. -/
structure AiProfessional where
  name : String
  role : String
  company : String
  location : String
  industry : String
  relevanceScore : Option Int
deriving DecidableEq

/-- `AiSearchResult` in the source. -/
structure AiSearchResult where
  interpretation : String
  targetProfiles : List AiProfessional
  searchStrategy : String
deriving DecidableEq

/-- The normalized contact record (`ContactDto` in the source). -/
structure ContactDto where
  id : String
  name : String
  firstName : String
  lastName : String
  title : String
  company : String
  location : String
  industry : String
  emails : List String
  phones : List String
  linkedInUrl : String
  profileImageUrl : String
  relevanceScore : Int
  summary : String
deriving DecidableEq

/-- A raw RocketReach profile record: the fields `mapRocketReachProfile`
and `buildProfileSummary` read.  String fields use `""` for `undefined`;
the email/phone payloads are untyped `JVal`s defaulting to
`jnull` (= `undefined`). -/
structure RawProfile where
  id : Option Int
  name : String
  first_name : String
  last_name : String
  current_title : String
  title : String
  current_employer : String
  employer : String
  location : String
  city : String
  region : String
  country : String
  industry : String
  emails : JVal
  telesign_emails : JVal
  phones : JVal
  telesign_phones : JVal
  linkedin_url : String
  li_url : String
  profile_pic : String
  photo_url : String
  relevance : Option Int

/-- An all-absent raw profile, for building concrete test records. -/
def emptyRaw : RawProfile :=
  { id := none, name := "", first_name := "", last_name := ""
  , current_title := "", title := "", current_employer := "", employer := ""
  , location := "", city := "", region := "", country := "", industry := ""
  , emails := JVal.jnull, telesign_emails := JVal.jnull
  , phones := JVal.jnull, telesign_phones := JVal.jnull
  , linkedin_url := "", li_url := "", profile_pic := "", photo_url := ""
  , relevance := none }

/-- `buildProfileSummary` from the source: title (default "Professional"),
then optional `at {company}`, `in {location}`, `| {industry}` segments,
joined by spaces.  Note it reads the raw `location` (untrimmed) and joins
only city/region, per the source. -/
def buildProfileSummary (profile : RawProfile) : String :=
  let title := jsOr profile.current_title (jsOr profile.title "Professional")
  let company := jsOr profile.current_employer profile.employer
  let location := jsOr profile.location (joinNonEmpty ", " [profile.city, profile.region])
  let industry := profile.industry
  let parts := [title]
    ++ (if company ≠ "" then ["at " ++ company] else [])
    ++ (if location ≠ "" then ["in " ++ location] else [])
    ++ (if industry ≠ "" then ["| " ++ industry] else [])
  String.intercalate " " parts

/-- `mapRocketReachProfile` from the source.  `fresh` stands for the
synthesized id `rr-${Date.now()}-${Math.random()}` used when the provider
supplies no id. -/
def mapRocketReachProfile (fresh : String) (profile : RawProfile) : ContactDto :=
  { id := match profile.id with
          | some n => toString n
          | none => fresh
  , name := jsOr profile.name (joinNonEmpty " " [profile.first_name, profile.last_name])
  , firstName := profile.first_name
  , lastName := profile.last_name
  , title := jsOr profile.current_title profile.title
  , company := jsOr profile.current_employer profile.employer
  , location := jsOr profile.location.trim
      (joinNonEmpty ", " [profile.city, profile.region, profile.country])
  , industry := profile.industry
  , emails := extractStringArray
      (jvalOr profile.emails (jvalOr profile.telesign_emails (JVal.jarr [])))
  , phones := extractStringArray
      (jvalOr profile.phones (jvalOr profile.telesign_phones (JVal.jarr [])))
  , linkedInUrl := jsOr profile.linkedin_url profile.li_url
  , profileImageUrl := jsOr profile.profile_pic profile.photo_url
  , relevanceScore := jsOrNum profile.relevance 90
  , summary := buildProfileSummary profile }

/-- The structured RocketReach sub-query body built from one target
profile: `{current_employer, current_title, location}`, each omitted
(undefined) when the profile field is falsy. -/
structure RRQuery where
  current_employer : Option (List String)
  current_title : Option (List String)
  location : Option (List String)
deriving DecidableEq

/-- Build one sub-query from a target profile, as in the source:
`profile.company ? [profile.company] : undefined`, etc. -/
def buildRRQuery (profile : AiProfessional) : RRQuery :=
  { current_employer := if profile.company = "" then none else some [profile.company]
  , current_title := if profile.role = "" then none else some [profile.role]
  , location := if profile.location = "" then none else some [profile.location] }

/-- The synthetic mock contact returned per target profile when no
RocketReach API key is configured (`conversations.service.ts`; the
`search.service.ts` copy differs only in the mock id format,
`mock-${index}` instead of `mock-${Date.now()}-${index}`).
`ip` is one `(index, profile)` pair of the enumerated target list. -/
def mockContact (now : Nat) (ip : Nat × AiProfessional) : ContactDto :=
  let index := ip.1
  let profile := ip.2
  { id := "mock-" ++ toString now ++ "-" ++ toString index
  , name := jsOr profile.name ("Professional " ++ toString (index + 1))
  , title := profile.role
  , company := profile.company
  , location := profile.location
  , industry := profile.industry
  , emails := ["professional" ++ toString (index + 1) ++ "@example.com"]
  , phones := ["+1-555-0" ++ toString (100 + index)]
  , linkedInUrl := "https://linkedin.com/in/professional" ++ toString (index + 1)
  , profileImageUrl := ""
  , relevanceScore := jsOrNum profile.relevanceScore 90
  , summary := "Experienced " ++ jsOr profile.role "professional" ++ " at "
      ++ jsOr profile.company "industry-leading company"
  , firstName := ""
  , lastName := "" }

/-- The synthetic fallback contact constructed per target profile by the
outer `catch` of the enrichment routine ("Fallback to mock data instead of
recursive call"): empty contact channels and default relevance 50. -/
def fallbackContact (now : Nat) (ip : Nat × AiProfessional) : ContactDto :=
  let index := ip.1
  let profile := ip.2
  { id := "fallback-" ++ toString now ++ "-" ++ toString index
  , name := jsOr profile.name ("Professional " ++ toString (index + 1))
  , title := profile.role
  , company := profile.company
  , location := profile.location
  , industry := profile.industry
  , emails := []
  , phones := []
  , linkedInUrl := ""
  , profileImageUrl := ""
  , relevanceScore := jsOrNum profile.relevanceScore 50
  , summary := jsOr profile.role "Professional" ++ " at " ++ jsOr profile.company "Unknown"
  , firstName := ""
  , lastName := "" }

/-- The per-profile sub-query loop of the enrichment routine, with the
inner `try`/`catch`: each iteration issues one provider call (recorded in
the second component); on success the returned raw profiles are normalized
and appended, on error the iteration logs and continues.  `i` is the loop
index; the fresh-id string passed to the normalizer stands for the
synthesized `rr-` id of the source, built from Date.now and Math.random. -/
def enrichLoop (now : Nat) (net : Nat → RRQuery → Except String (List RawProfile)) :
    Nat → List AiProfessional → List ContactDto × List (Nat × RRQuery)
  | _, [] => ([], [])
  | i, profile :: rest =>
      let q := buildRRQuery profile
      let tail := enrichLoop now net (i + 1) rest
      match net i q with
      | Except.ok rawProfiles =>
          ((rawProfiles.enum.map fun jp =>
              mapRocketReachProfile
                ("rr-" ++ toString now ++ "-" ++ toString i ++ "-" ++ toString jp.1)
                jp.2)
            ++ tail.1, (i, q) :: tail.2)
      | Except.error _ => (tail.1, (i, q) :: tail.2)

/-- `enrichContactsWithRocketReach` from the source.  Returns the contact
list together with the log of provider sub-queries actually issued.
`setup` is the outcome of the setup-level code of the outer `try` (before
any sub-query is issued); when it throws, the outer `catch` constructs the
fallback contacts directly. -/
def enrichContactsWithRocketReach (now : Nat) (rocketreachApiKey : String)
    (net : Nat → RRQuery → Except String (List RawProfile))
    (setup : Except String Unit) (aiResult : AiSearchResult) :
    List ContactDto × List (Nat × RRQuery) :=
  if rocketreachApiKey = "" then
    (aiResult.targetProfiles.enum.map (mockContact now), [])
  else
    match setup with
    | Except.ok _ => enrichLoop now net 0 aiResult.targetProfiles
    | Except.error _ => (aiResult.targetProfiles.enum.map (fallbackContact now), [])

/-- Message roles in a conversation transcript. -/
inductive Role where
  | user
  | assistant
  | system
deriving DecidableEq

/-- The string form of a role, as stored in Mongo and sent to the model. -/
def Role.toStr : Role → String
  | Role.user => "user"
  | Role.assistant => "assistant"
  | Role.system => "system"

/-- One transcript entry (timestamps are not modelled: no claim concerns
them). -/
structure ConvMessage where
  role : Role
  content : String
  contacts : List ContactDto
  suggestedActions : List String
deriving DecidableEq

/-- A conversation document (`Conversation` schema). -/
structure Conversation where
  id : String
  userId : String
  title : String
  messages : List ConvMessage
  contactCount : Nat
  followUpCount : Nat
  isArchived : Bool
deriving DecidableEq

/-- The caller-facing conversation representation (`ConversationDto`). -/
structure ConversationDto where
  id : String
  title : String
  messages : List ConvMessage
  contactCount : Nat
  followUpCount : Nat
  isArchived : Bool
deriving DecidableEq

/-- `mapToDto` from the source (timestamp serialization omitted). -/
def mapToDto (conversation : Conversation) : ConversationDto :=
  { id := conversation.id
  , title := conversation.title
  , messages := conversation.messages
  , contactCount := conversation.contactCount
  , followUpCount := conversation.followUpCount
  , isArchived := conversation.isArchived }

/-- A search-history document (`SearchHistory` schema; timestamp not
modelled). -/
structure SearchHistoryRecord where
  id : String
  userId : String
  query : String
  resultCount : Nat
deriving DecidableEq

/-- An HTTP exception thrown to the caller (`HttpException`). -/
structure HttpError where
  status : Nat
  message : String
deriving DecidableEq

/-- Mongo `findOne({_id: conversationId, userId})` over the store. -/
def findConv (store : List Conversation) (userId conversationId : String) :
    Option Conversation :=
  store.find? fun c => c.id == conversationId && c.userId == userId

/-- `getConversation` from the source: 404 when no document matches both
the id and the calling user. -/
def getConversation (store : List Conversation) (userId conversationId : String) :
    Except HttpError ConversationDto :=
  match findConv store userId conversationId with
  | none => Except.error { status := 404, message := "Conversation not found" }
  | some c => Except.ok (mapToDto c)

/-- `deleteSearchHistory` from the source: Mongo
`deleteOne({_id: historyId, userId})` (removes at most the first matching
document), returning `deletedCount > 0` alongside the updated store. -/
def deleteSearchHistory (hist : List SearchHistoryRecord)
    (userId historyId : String) : Bool × List SearchHistoryRecord :=
  let pred := fun (r : SearchHistoryRecord) => r.id == historyId && r.userId == userId
  (hist.any pred, hist.eraseP pred)

/-- The input-building step of `parseQueryWithAI` (conversations variant):
with more than one history entry, the last 6 entries (`slice(-6)`), each
content truncated to 200 characters (`substring(0, 200)`), are joined and
prefixed to the current query; otherwise the bare query is sent.  History
entries are `(role, content)` pairs. -/
def buildAiInput (conversationHistory : List (String × String)) (query : String) :
    String :=
  if conversationHistory.length > 1 then
    let recentHistory := conversationHistory.drop (conversationHistory.length - 6)
    "Conversation context:\n"
      ++ String.intercalate "\n"
          (recentHistory.map fun m => m.1 ++ ": " ++ m.2.take 200)
      ++ "\n\nCurrent user query: " ++ query
  else
    query

/-- `parseQueryWithAI` from the source, with the OpenAI transport (HTTP
call, output-segment concatenation, code-fence stripping and JSON parsing)
abstracted as `openai`; on any failure the error is rewrapped with the
message of the source. -/
def parseQueryWithAI (openai : String → Except String AiSearchResult)
    (query : String) (conversationHistory : List (String × String)) :
    Except String AiSearchResult :=
  match openai (buildAiInput conversationHistory query) with
  | Except.ok r => Except.ok r
  | Except.error e => Except.error ("Failed to parse query with AI: " ++ e)

/-- `formatResults` from the source (conversations variant). -/
def formatResults (aiResult : AiSearchResult) (contacts : List ContactDto) :
    String :=
  let count := contacts.length
  if count = 0 then
    "I searched for \"" ++ aiResult.interpretation
      ++ "\" but couldn\u0027t find any matching professionals at the moment. Try refining your search with more specific criteria, or ask me to look in a different location or industry."
  else
    "I found " ++ toString count ++ " professional"
      ++ (if count > 1 then "s" else "") ++ " matching \""
      ++ aiResult.interpretation
      ++ "\". Here are the results with verified contact information:"

/-- The observable outcome of one `sendMessage` call: the conversation
document as saved, the search-history record appended (if any), and the
DTO returned to the caller. -/
structure SendResult where
  conv : Conversation
  savedHistory : Option SearchHistoryRecord
  dto : ConversationDto
deriving DecidableEq

/-- `sendMessage` from the source: look up the conversation scoped by
`(userId, conversationId)` (404 if absent), append the user turn, derive
the title from the first user message, run interpretation then enrichment
then composition, and append the assistant turn — on pipeline failure the
`catch` appends an error assistant turn instead; the conversation is saved
and mapped to a DTO in both outcomes.  `newHistId` stands for the Mongo id
assigned to the saved history record; the external
`usersService.incrementApiCallCount` collaborator call is not modelled. -/
def sendMessage (store : List Conversation)
    (openai : String → Except String AiSearchResult)
    (rocketreachApiKey : String)
    (net : Nat → RRQuery → Except String (List RawProfile))
    (setup : Except String Unit) (now : Nat) (newHistId : String)
    (userId conversationId message : String) : Except HttpError SendResult :=
  match findConv store userId conversationId with
  | none => Except.error { status := 404, message := "Conversation not found" }
  | some conversation =>
      let afterUser : Conversation := { conversation with
        messages := conversation.messages
          ++ [{ role := Role.user, content := message
              , contacts := [], suggestedActions := [] }] }
      let userMessageCount :=
        (afterUser.messages.filter fun m => m.role == Role.user).length
      let titled : Conversation := if userMessageCount = 1 then
          { afterUser with
            title := if message.length > 60 then message.take 57 ++ "..." else message }
        else afterUser
      let conversationHistory := titled.messages.map fun m => (m.role.toStr, m.content)
      match parseQueryWithAI openai message conversationHistory with
      | Except.ok aiResult =>
          let contacts :=
            (enrichContactsWithRocketReach now rocketreachApiKey net setup aiResult).1
          let assistantContent := formatResults aiResult contacts
          let suggestedActions := if contacts.length > 0 then
              ["Send follow-up to all", "Save all contacts", "Refine search",
               "Export contacts"]
            else ["Try a different search", "Broaden your criteria"]
          let final : Conversation := { titled with
            messages := titled.messages
              ++ [{ role := Role.assistant, content := assistantContent
                  , contacts := contacts, suggestedActions := suggestedActions }]
            , contactCount := titled.contactCount + contacts.length }
          Except.ok
            { conv := final
            , savedHistory := some
                { id := newHistId, userId := userId
                , query := message, resultCount := contacts.length }
            , dto := mapToDto final }
      | Except.error e =>
          let final : Conversation := { titled with
            messages := titled.messages
              ++ [{ role := Role.assistant
                  , content := "I encountered an issue while searching: " ++ e
                      ++ ". Please try again or rephrase your request."
                  , contacts := []
                  , suggestedActions := ["Try again", "Rephrase your search"] }] }
          Except.ok { conv := final, savedHistory := none, dto := mapToDto final }

/-! Helper lemmas. -/

theorem stringLengthPos (s : String) : 0 < s.length ↔ s ≠ "" := by
  cases s with
  | mk data =>
    simp [String.length, String.ext_iff]
    cases data with
    | nil => simp
    | cons a l => simp

theorem appendNeEmpty (a b : String) (h : a ≠ "") : a ++ b ≠ "" := by
  intro hab
  have hl := congrArg String.length hab
  rw [String.length_append] at hl
  have h0 : ("" : String).length = 0 := rfl
  rw [h0] at hl
  have ha := (stringLengthPos a).mpr h
  omega

theorem extractItemJobj (fields : List (String × JVal)) :
    extractItem (JVal.jobj fields) =
      ["email", "number", "value", "raw_number"].findSome?
        (fun k => let v := fieldVal fields k
                  if v.truthy then some v else none) := by
  simp only [extractItem, List.findSome?_cons, List.findSome?_nil]
  by_cases he : (fieldVal fields "email").truthy <;>
    by_cases hn : (fieldVal fields "number").truthy <;>
      by_cases hv : (fieldVal fields "value").truthy <;>
        by_cases hr : (fieldVal fields "raw_number").truthy <;>
          simp [he, hn, hv, hr]

theorem extractAgree (item : JVal) :
    (match extractItem item with
      | some (JVal.jstr s) => if s.length > 0 then some s else none
      | _ => none) = extractEntrySpec item := by
  cases item with
  | jstr s =>
      simp only [extractItem, extractEntrySpec]
      rcases eq_or_ne s "" with h | h
      · subst h; simp
      · simp [h, (stringLengthPos s).mpr h]
  | jobj fields =>
      rw [extractItemJobj]
      simp only [extractEntrySpec]
      cases hf : (["email", "number", "value", "raw_number"].findSome?
        (fun k => let v := fieldVal fields k
                  if v.truthy then some v else none)) with
      | none => rfl
      | some v =>
          cases v with
          | jstr s =>
              rcases eq_or_ne s "" with h | h
              · subst h; simp
              · simp [h, (stringLengthPos s).mpr h]
          | jnum n => rfl
          | jbool b => rfl
          | jnull => rfl
          | jarr l => rfl
          | jobj fs => rfl
  | jnum n => rfl
  | jbool b => rfl
  | jnull => rfl
  | jarr l => rfl

/-! Concrete fixtures used by witness instances. -/

def pA : AiProfessional :=
  { name := "", role := "Real Estate Agent", company := ""
  , location := "Dubai, UAE", industry := "Real Estate", relevanceScore := some 95 }

def pB : AiProfessional :=
  { name := "", role := "Broker", company := "Acme"
  , location := "", industry := "", relevanceScore := none }

def aiFixture : AiSearchResult :=
  { interpretation := "real estate agents in Dubai"
  , targetProfiles := [pA, pB], searchStrategy := "broad role keywords" }

def rsFixture : List RawProfile := [emptyRaw, emptyRaw, emptyRaw]

def netFixture : Nat → RRQuery → Except String (List RawProfile) :=
  fun i _ => if i = 0 then Except.error "socket hang up" else Except.ok rsFixture

def welcomeMsg : ConvMessage :=
  { role := Role.assistant
  , content := "Hello! Tell me what kind of professionals you are looking for."
  , contacts := []
  , suggestedActions := ["Real estate agents in Dubai"] }

def convFixture : Conversation :=
  { id := "c1", userId := "alice", title := "New Conversation"
  , messages := [welcomeMsg], contactCount := 0, followUpCount := 0
  , isArchived := false }

def storeFixture : List Conversation := [convFixture]

def openaiFail : String → Except String AiSearchResult :=
  fun _ => Except.error "Request failed with status code 401"

def recFixture : SearchHistoryRecord :=
  { id := "r1", userId := "alice", query := "find agents", resultCount := 3 }

def histFixture : List SearchHistoryRecord := [recFixture]

/-- The emails payload of claim C6: an email-shaped object, a plain
string, and a phone-shaped object. -/
def c6emails : JVal :=
  JVal.jarr
    [ JVal.jobj [("email", JVal.jstr "a@b.com")]
    , JVal.jstr "c@d.com"
    , JVal.jobj [("number", JVal.jstr "x")] ]

/-- A raw profile whose emails field is the C6 payload. -/
def c6input : RawProfile := { emptyRaw with emails := c6emails }

/-! Claim theorems. -/

/-- C1: with a provider credential configured, a failing per-profile
sub-query is logged and skipped, and the remaining sub-queries still run:
with two target profiles where the first sub-query throws and the second
returns 3 profiles, the enrichment result is exactly the 3 normalized
profiles of the second query (so the final contact list has 3 entries),
and no error escapes the enrichment call (its return type is a plain
list). -/
theorem enrich_subquery_failure_isolated (now : Nat) (key : String)
    (net : Nat → RRQuery → Except String (List RawProfile))
    (interp strat : String) (p1 p2 : AiProfessional)
    (e : String) (rs : List RawProfile)
    (hkey : key ≠ "")
    (h1 : net 0 (buildRRQuery p1) = Except.error e)
    (h2 : net 1 (buildRRQuery p2) = Except.ok rs)
    (h3 : rs.length = 3) :
    (enrichContactsWithRocketReach now key net (Except.ok ())
        { interpretation := interp, targetProfiles := [p1, p2]
        , searchStrategy := strat }).1
      = rs.enum.map (fun jp => mapRocketReachProfile
          ("rr-" ++ toString now ++ "-" ++ toString 1 ++ "-" ++ toString jp.1) jp.2)
    ∧ (enrichContactsWithRocketReach now key net (Except.ok ())
        { interpretation := interp, targetProfiles := [p1, p2]
        , searchStrategy := strat }).1.length
      = 3 := by
  have hmain : (enrichContactsWithRocketReach now key net (Except.ok ())
      { interpretation := interp, targetProfiles := [p1, p2]
      , searchStrategy := strat }).1
      = rs.enum.map (fun jp => mapRocketReachProfile
          ("rr-" ++ toString now ++ "-" ++ toString 1 ++ "-" ++ toString jp.1) jp.2) := by
    simp only [enrichContactsWithRocketReach, if_neg hkey, enrichLoop, h1, h2]
    simp
  exact ⟨hmain, by rw [hmain]; simp [h3]⟩

/-- C1 witness: the scenario at concrete inputs. -/
theorem enrich_subquery_failure_isolated_inst :
    (enrichContactsWithRocketReach 7 "k" netFixture (Except.ok ())
        { interpretation := "interp", targetProfiles := [pA, pB]
        , searchStrategy := "strat" }).1
      = rsFixture.enum.map (fun jp => mapRocketReachProfile
          ("rr-" ++ toString 7 ++ "-" ++ toString 1 ++ "-" ++ toString jp.1) jp.2)
    ∧ (enrichContactsWithRocketReach 7 "k" netFixture (Except.ok ())
        { interpretation := "interp", targetProfiles := [pA, pB]
        , searchStrategy := "strat" }).1.length
      = 3 :=
  enrich_subquery_failure_isolated 7 "k" netFixture "interp" "strat" pA pB
    "socket hang up" rsFixture (by decide) rfl rfl rfl

/-- C2: on a conversation that exists and is owned by the calling user,
sendMessage always returns a saved conversation whose transcript grew by
exactly 2 messages (the user turn and one assistant turn), for every
interpretation outcome (the quantified openai transport covers both
pipeline success and failure). -/
theorem sendMessage_transcript_plus_two (store : List Conversation)
    (openai : String → Except String AiSearchResult) (key : String)
    (net : Nat → RRQuery → Except String (List RawProfile))
    (setup : Except String Unit) (now : Nat) (histId : String)
    (userId convId message : String) (c : Conversation)
    (hfind : findConv store userId convId = some c) :
    ∃ r, sendMessage store openai key net setup now histId userId convId message
          = Except.ok r
      ∧ r.conv.messages.length = c.messages.length + 2 := by
  simp only [sendMessage, hfind]
  split
  · exact ⟨_, rfl, by split <;> simp⟩
  · exact ⟨_, rfl, by split <;> simp⟩

/-- C2 witness: a concrete store, with a failing interpretation
transport. -/
theorem sendMessage_transcript_plus_two_inst :
    ∃ r, sendMessage storeFixture openaiFail "k" netFixture (Except.ok ()) 7 "h1"
          "alice" "c1" "find agents" = Except.ok r
      ∧ r.conv.messages.length = convFixture.messages.length + 2 :=
  sendMessage_transcript_plus_two storeFixture openaiFail "k" netFixture
    (Except.ok ()) 7 "h1" "alice" "c1" "find agents" convFixture rfl

/-- C3: with no provider credential configured (empty key), enrichment
issues no network sub-query (the issued-query log is empty, for every
transport), and returns exactly one synthetic contact per target profile,
each carrying a non-empty synthesized email and a non-empty synthesized
phone. -/
theorem enrich_without_key_returns_mocks (now : Nat)
    (net : Nat → RRQuery → Except String (List RawProfile))
    (setup : Except String Unit) (aiResult : AiSearchResult) :
    (enrichContactsWithRocketReach now "" net setup aiResult).2 = []
    ∧ (enrichContactsWithRocketReach now "" net setup aiResult).1.length
        = aiResult.targetProfiles.length
    ∧ ∀ c ∈ (enrichContactsWithRocketReach now "" net setup aiResult).1,
        c.emails ≠ [] ∧ c.phones ≠ []
        ∧ (∀ s ∈ c.emails, s ≠ "") ∧ (∀ s ∈ c.phones, s ≠ "") := by
  refine ⟨rfl, ?_, ?_⟩
  · simp [enrichContactsWithRocketReach]
  · intro c hc
    simp only [enrichContactsWithRocketReach, if_pos rfl] at hc
    obtain ⟨ip, hip, rfl⟩ := List.mem_map.mp hc
    refine ⟨by simp [mockContact], by simp [mockContact], ?_, ?_⟩
    · intro s hs
      simp only [mockContact, List.mem_singleton] at hs
      subst hs
      exact appendNeEmpty _ _ (appendNeEmpty _ _ (by decide))
    · intro s hs
      simp only [mockContact, List.mem_singleton] at hs
      subst hs
      exact appendNeEmpty _ _ (by decide)

/-- C3 witness: the providerless call at a concrete interpretation
result. -/
theorem enrich_without_key_returns_mocks_inst :
    (enrichContactsWithRocketReach 7 "" netFixture (Except.ok ()) aiFixture).2 = []
    ∧ (enrichContactsWithRocketReach 7 "" netFixture (Except.ok ()) aiFixture).1.length
        = aiFixture.targetProfiles.length
    ∧ ∀ c ∈ (enrichContactsWithRocketReach 7 "" netFixture (Except.ok ()) aiFixture).1,
        c.emails ≠ [] ∧ c.phones ≠ []
        ∧ (∀ s ∈ c.emails, s ≠ "") ∧ (∀ s ∈ c.phones, s ≠ "") :=
  enrich_without_key_returns_mocks 7 netFixture (Except.ok ()) aiFixture

/-- C4: when interpretation fails (the only pipeline stage that can throw:
enrichment degrades internally and never fails), sendMessage still returns
a saved conversation ending in an assistant turn whose content carries the
failure reason and whose suggestedActions invite retry; contactCount is
unchanged, no SearchHistoryRecord is appended, and the caller receives the
mapped DTO of the saved conversation rather than a raw pipeline error. -/
theorem sendMessage_pipeline_failure_as_turn (store : List Conversation)
    (openai : String → Except String AiSearchResult) (key : String)
    (net : Nat → RRQuery → Except String (List RawProfile))
    (setup : Except String Unit) (now : Nat) (histId : String)
    (userId convId message : String) (c : Conversation) (e : String)
    (hfind : findConv store userId convId = some c)
    (hfail : ∀ s, openai s = Except.error e) :
    ∃ r, sendMessage store openai key net setup now histId userId convId message
          = Except.ok r
      ∧ r.savedHistory = none
      ∧ r.conv.contactCount = c.contactCount
      ∧ r.dto = mapToDto r.conv
      ∧ r.conv.messages.length = c.messages.length + 2
      ∧ r.conv.messages.getLast? = some
          { role := Role.assistant
          , content := "I encountered an issue while searching: Failed to parse query with AI: "
              ++ e ++ ". Please try again or rephrase your request."
          , contacts := []
          , suggestedActions := ["Try again", "Rephrase your search"] } := by
  simp only [sendMessage, hfind, parseQueryWithAI, hfail]
  refine ⟨_, rfl, rfl, ?_, rfl, ?_, ?_⟩
  · split <;> rfl
  · split <;> simp
  · have hlit : ("I encountered an issue while searching: " : String)
        ++ "Failed to parse query with AI: "
        = "I encountered an issue while searching: Failed to parse query with AI: " := rfl
    split <;> simp [← String.append_assoc, hlit]

/-- C4 witness: a failing interpretation transport on a concrete store. -/
theorem sendMessage_pipeline_failure_as_turn_inst :
    ∃ r, sendMessage storeFixture openaiFail "k" netFixture (Except.ok ()) 7 "h1"
          "alice" "c1" "find agents" = Except.ok r
      ∧ r.savedHistory = none
      ∧ r.conv.contactCount = convFixture.contactCount
      ∧ r.dto = mapToDto r.conv
      ∧ r.conv.messages.length = convFixture.messages.length + 2
      ∧ r.conv.messages.getLast? = some
          { role := Role.assistant
          , content := "I encountered an issue while searching: Failed to parse query with AI: "
              ++ "Request failed with status code 401"
              ++ ". Please try again or rephrase your request."
          , contacts := []
          , suggestedActions := ["Try again", "Rephrase your search"] } :=
  sendMessage_pipeline_failure_as_turn storeFixture openaiFail "k" netFixture
    (Except.ok ()) 7 "h1" "alice" "c1" "find agents" convFixture
    "Request failed with status code 401" rfl (fun _ => rfl)

/-- C5: each entry of a source list is handled by exactly three accepted
shapes — a plain string is kept, an object is resolved through its
email / number / value / raw_number fields in that priority order (a field
counts when present with a truthy value, as the source tests `item.email`
etc.), and anything else is dropped — and the output is the list of
successfully extracted strings in source order with empty strings
excluded.  Formally, the extraction routine of the source coincides with
the per-entry filterMap of the specified shape resolution. -/
theorem extractStringArray_three_shapes (items : List JVal) :
    extractStringArray (JVal.jarr items) = items.filterMap extractEntrySpec := by
  simp only [extractStringArray, List.filterMap_map]
  exact congrArg (fun f => items.filterMap f)
    (funext fun item => extractAgree item)

/-- C6 counterexample: at the claimed input
`[{email: "a@b.com"}, "c@d.com", {number: "x"}]` the normalized emails are
NOT `["a@b.com", "c@d.com"]` — the extraction helper is shape-generic and
also unwraps the `number` field, so the phone-shaped object is not
excluded from the emails list. -/
theorem normalize_emails_excludes_phone_shape_refuted :
    (mapRocketReachProfile "rr-0" c6input).emails ≠ ["a@b.com", "c@d.com"] := by
  decide

/-- C6 amended: for every profile-normalization input whose emails field
is `[{email: "a@b.com"}, "c@d.com", {number: "x"}]`, the normalized emails
equal `["a@b.com", "c@d.com", "x"]`: the phone-shaped object is unwrapped
via its `number` field and included, since the same extraction helper
serves both emails and phones. -/
theorem normalize_emails_unwraps_number_field (fresh : String) (p : RawProfile)
    (h : p.emails = c6emails) :
    (mapRocketReachProfile fresh p).emails = ["a@b.com", "c@d.com", "x"] := by
  simp only [mapRocketReachProfile, h]
  rfl

/-- C6 amended witness: the concrete raw profile. -/
theorem normalize_emails_unwraps_number_field_inst :
    (mapRocketReachProfile "rr-0" c6input).emails = ["a@b.com", "c@d.com", "x"] :=
  normalize_emails_unwraps_number_field "rr-0" c6input rfl

/-- C7: when the enrichment call fails above the individual sub-queries
(the setup outcome of the outer try block is an error) with a credential
configured, the result is the direct per-profile construction
`fallbackContact` (the embedding of the catch handler, which the source
comments mark as a deliberate non-recursive replacement), one entry per
target profile, each with empty email and phone lists; a profile supplying
no relevance score gets default 50 on this path, versus default 90 on the
no-credential mock path. -/
theorem enrich_outer_failure_direct_fallback (now : Nat) (key msg : String)
    (net : Nat → RRQuery → Except String (List RawProfile))
    (aiResult : AiSearchResult) (hkey : key ≠ "") :
    (enrichContactsWithRocketReach now key net (Except.error msg) aiResult).1
      = aiResult.targetProfiles.enum.map (fallbackContact now)
    ∧ (enrichContactsWithRocketReach now key net (Except.error msg) aiResult).1.length
        = aiResult.targetProfiles.length
    ∧ (∀ c ∈ (enrichContactsWithRocketReach now key net (Except.error msg) aiResult).1,
        c.emails = [] ∧ c.phones = [])
    ∧ (∀ ip ∈ aiResult.targetProfiles.enum, ip.2.relevanceScore = none →
        (fallbackContact now ip).relevanceScore = 50
        ∧ (mockContact now ip).relevanceScore = 90) := by
  refine ⟨by simp [enrichContactsWithRocketReach, hkey], ?_, ?_, ?_⟩
  · simp [enrichContactsWithRocketReach, hkey]
  · intro c hc
    simp only [enrichContactsWithRocketReach, if_neg hkey] at hc
    obtain ⟨ip, hip, rfl⟩ := List.mem_map.mp hc
    exact ⟨rfl, rfl⟩
  · intro ip hip hnone
    exact ⟨by simp [fallbackContact, hnone, jsOrNum],
           by simp [mockContact, hnone, jsOrNum]⟩

/-- C7 witness: a setup-level failure at a concrete interpretation
result whose second profile supplies no relevance score. -/
theorem enrich_outer_failure_direct_fallback_inst :
    (enrichContactsWithRocketReach 7 "k" netFixture
        (Except.error "targetProfiles is not iterable") aiFixture).1
      = aiFixture.targetProfiles.enum.map (fallbackContact 7)
    ∧ (enrichContactsWithRocketReach 7 "k" netFixture
        (Except.error "targetProfiles is not iterable") aiFixture).1.length
        = aiFixture.targetProfiles.length
    ∧ (∀ c ∈ (enrichContactsWithRocketReach 7 "k" netFixture
        (Except.error "targetProfiles is not iterable") aiFixture).1,
        c.emails = [] ∧ c.phones = [])
    ∧ (∀ ip ∈ aiFixture.targetProfiles.enum, ip.2.relevanceScore = none →
        (fallbackContact 7 ip).relevanceScore = 50
        ∧ (mockContact 7 ip).relevanceScore = 90) :=
  enrich_outer_failure_direct_fallback 7 "k" "targetProfiles is not iterable"
    netFixture aiFixture (by decide)

/-- C8: for conversation reads and search-history deletes issued by user B
against records owned by user A (with A ≠ B and the targeted ids owned
only by A), the read fails with the same 404 not-found error used for
nonexistent records (never a 403 forbidden), and the delete is a no-op
reporting deletedCount 0, leaving the store — including the record of
user A — untouched. -/
theorem cross_tenant_reads_and_deletes_not_found (store : List Conversation)
    (hist : List SearchHistoryRecord) (userA userB convId histId : String)
    (c : Conversation) (rec : SearchHistoryRecord)
    (hne : userA ≠ userB)
    (hc : c ∈ store) (hcid : c.id = convId) (hcown : c.userId = userA)
    (hconly : ∀ c2 ∈ store, c2.id = convId → c2.userId = userA)
    (hr : rec ∈ hist) (hrid : rec.id = histId) (hrown : rec.userId = userA)
    (hronly : ∀ r2 ∈ hist, r2.id = histId → r2.userId = userA) :
    getConversation store userB convId
      = Except.error { status := 404, message := "Conversation not found" }
    ∧ deleteSearchHistory hist userB histId = (false, hist)
    ∧ rec ∈ (deleteSearchHistory hist userB histId).2 := by
  have hnomatch : ∀ r2 ∈ hist, ¬(r2.id == histId && r2.userId == userB) = true := by
    intro r2 hr2 hmatch
    simp only [Bool.and_eq_true, beq_iff_eq] at hmatch
    exact hne ((hronly r2 hr2 hmatch.1).symm.trans hmatch.2)
  have hfind : findConv store userB convId = none := by
    rw [findConv, List.find?_eq_none]
    intro c2 hc2 hmatch
    simp only [Bool.and_eq_true, beq_iff_eq] at hmatch
    exact hne ((hconly c2 hc2 hmatch.1).symm.trans hmatch.2)
  have hdel : deleteSearchHistory hist userB histId = (false, hist) := by
    rw [deleteSearchHistory]
    refine Prod.ext ?_ ?_
    · simp only []
      rw [List.any_eq_false]
      exact fun r2 hr2 => hnomatch r2 hr2
    · simp only []
      exact List.eraseP_of_forall_not hnomatch
  refine ⟨?_, hdel, ?_⟩
  · rw [getConversation, hfind]
  · rw [hdel]
    exact hr

/-- C8 witness: user bob against a store and a history list owned by
alice. -/
theorem cross_tenant_reads_and_deletes_not_found_inst :
    getConversation storeFixture "bob" "c1"
      = Except.error { status := 404, message := "Conversation not found" }
    ∧ deleteSearchHistory histFixture "bob" "r1" = (false, histFixture)
    ∧ recFixture ∈ (deleteSearchHistory histFixture "bob" "r1").2 :=
  cross_tenant_reads_and_deletes_not_found storeFixture histFixture
    "alice" "bob" "c1" "r1" convFixture recFixture
    (by decide) (by decide) rfl rfl (by decide)
    (by decide) rfl rfl (by decide)

/-- C9: when the sent message is the first user message of the
conversation (its prior transcript contains no user turn), the saved
conversation title equals the message when its length is at most 60
characters and the first 57 characters followed by three dots otherwise,
in which case the title has length exactly 60. -/
theorem sendMessage_title_from_first_user_message (store : List Conversation)
    (openai : String → Except String AiSearchResult) (key : String)
    (net : Nat → RRQuery → Except String (List RawProfile))
    (setup : Except String Unit) (now : Nat) (histId : String)
    (userId convId message : String) (c : Conversation)
    (hfind : findConv store userId convId = some c)
    (hnouser : c.messages.filter (fun m => m.role == Role.user) = []) :
    ∃ r, sendMessage store openai key net setup now histId userId convId message
          = Except.ok r
      ∧ r.conv.title
          = (if message.length > 60 then message.take 57 ++ "..." else message)
      ∧ (message.length > 60 → r.conv.title.length = 60) := by
  have hcount : (List.filter (fun m => m.role == Role.user)
      (c.messages ++ [{ role := Role.user, content := message
                      , contacts := [], suggestedActions := [] }])).length = 1 := by
    simp [List.filter_append, hnouser]
  have htake : message.length > 60 →
      (message.take 57 ++ ("..." : String)).length = 60 := by
    intro hlen
    rw [String.length_append]
    have h3 : ("..." : String).length = 3 := rfl
    have ht : (message.take 57).length = min 57 message.length := by
      rw [String.take_eq]
      show (message.data.take 57).length = min 57 message.length
      rw [List.length_take]
      rfl
    omega
  simp only [sendMessage, hfind, hcount, if_pos]
  split
  · refine ⟨_, rfl, ?_, ?_⟩
    · simp
    · intro hlen
      simp only [if_pos hlen]
      exact htake hlen
  · refine ⟨_, rfl, ?_, ?_⟩
    · simp
    · intro hlen
      simp only [if_pos hlen]
      exact htake hlen

/-- C9 witness: the spec scenario, a 102-character first user message. -/
theorem sendMessage_title_from_first_user_message_inst :
    ∃ r, sendMessage storeFixture openaiFail "k" netFixture (Except.ok ()) 7 "h1"
          "alice" "c1"
          "Find me senior backend engineers in Berlin who have worked at fintech startups for at least five years"
          = Except.ok r
      ∧ r.conv.title
          = (if ("Find me senior backend engineers in Berlin who have worked at fintech startups for at least five years" : String).length > 60 then
              ("Find me senior backend engineers in Berlin who have worked at fintech startups for at least five years" : String).take 57 ++ "..."
            else
              "Find me senior backend engineers in Berlin who have worked at fintech startups for at least five years")
      ∧ (("Find me senior backend engineers in Berlin who have worked at fintech startups for at least five years" : String).length > 60 →
          r.conv.title.length = 60) :=
  sendMessage_title_from_first_user_message storeFixture openaiFail "k" netFixture
    (Except.ok ()) 7 "h1" "alice" "c1"
    "Find me senior backend engineers in Berlin who have worked at fintech startups for at least five years"
    convFixture rfl rfl

/-- C10: for every history and query, the interpretation client consults
its transport exactly on the built input; when the history has at most one
entry the built input is the bare query (no context), and
when it has more than one entry the built input is the context block over
the most recent `min 6 length` entries — a suffix of the history — each
content truncated to 200 characters, followed by the current query. -/
theorem parse_context_window_bounded (query : String)
    (hst : List (String × String)) :
    (∀ openai r, parseQueryWithAI openai query hst = Except.ok r
        ↔ openai (buildAiInput hst query) = Except.ok r)
    ∧ (hst.length ≤ 1 → buildAiInput hst query = query)
    ∧ (1 < hst.length → ∃ pre used, hst = pre ++ used
        ∧ used.length = min 6 hst.length
        ∧ buildAiInput hst query =
          "Conversation context:\n"
          ++ String.intercalate "\n"
              (used.map fun m => m.1 ++ ": " ++ m.2.take 200)
          ++ "\n\nCurrent user query: " ++ query) := by
  refine ⟨?_, ?_, ?_⟩
  · intro openai r
    rw [parseQueryWithAI]
    cases openai (buildAiInput hst query) <;> simp
  · intro hle
    rw [buildAiInput, if_neg (by omega)]
  · intro hgt
    refine ⟨hst.take (hst.length - 6), hst.drop (hst.length - 6),
      (List.take_append_drop _ _).symm, ?_, ?_⟩
    · rw [List.length_drop]
      omega
    · rw [buildAiInput, if_pos (by omega)]

/-- C10 witness: a three-entry history. -/
theorem parse_context_window_bounded_inst :
    (∀ openai r, parseQueryWithAI openai "now in Abu Dhabi"
          [("assistant", "Hello"), ("user", "agents in Dubai"), ("assistant", "I found 3")]
        = Except.ok r
      ↔ openai (buildAiInput
          [("assistant", "Hello"), ("user", "agents in Dubai"), ("assistant", "I found 3")]
          "now in Abu Dhabi") = Except.ok r)
    ∧ (([("assistant", "Hello"), ("user", "agents in Dubai"), ("assistant", "I found 3")]
        : List (String × String)).length ≤ 1 →
        buildAiInput
          [("assistant", "Hello"), ("user", "agents in Dubai"), ("assistant", "I found 3")]
          "now in Abu Dhabi" = "now in Abu Dhabi")
    ∧ (1 < ([("assistant", "Hello"), ("user", "agents in Dubai"), ("assistant", "I found 3")]
        : List (String × String)).length →
        ∃ pre used,
          ([("assistant", "Hello"), ("user", "agents in Dubai"), ("assistant", "I found 3")]
            : List (String × String)) = pre ++ used
        ∧ used.length = min 6 ([("assistant", "Hello"), ("user", "agents in Dubai"), ("assistant", "I found 3")]
            : List (String × String)).length
        ∧ buildAiInput
            [("assistant", "Hello"), ("user", "agents in Dubai"), ("assistant", "I found 3")]
            "now in Abu Dhabi" =
          "Conversation context:\n"
          ++ String.intercalate "\n"
              (used.map fun m => m.1 ++ ": " ++ m.2.take 200)
          ++ "\n\nCurrent user query: " ++ "now in Abu Dhabi") :=
  parse_context_window_bounded "now in Abu Dhabi"
    [("assistant", "Hello"), ("user", "agents in Dubai"), ("assistant", "I found 3")]
